import Mathlib

/-
Verification of the gold-price dashboard (src/main.py) against its
natural-language specification.

Shallow embedding conventions:
* Prices are modelled as exact rationals (the Python code holds them as
  floating-point numbers obtained from decimal strings; every concrete
  input used below is an exact decimal, where float and rational
  arithmetic agree on the rounded results).
* Parsed dates are kept as their ISO "YYYY-MM-DD" strings: the code runs
  datetime.strptime on the string and later prints it back, a bijection
  on the valid inputs every claim ranges over.
* pandas missing values (NaN results of mean/min/max/quantile/std on
  too-short input) are modelled as Option.none.
* The one HTTP call is modelled by a fetch oracle
  String -> String -> FetchOutcome passed to the render function; the
  requests library resolves redirects internally, so a completed
  response surfaces either as parsed JSON items (success), a 4xx/5xx
  raise_for_status error (httpError), a body that is not valid JSON
  (malformedJson), or a transport-level failure (networkFailure); all
  exception outcomes are subclasses of requests.RequestException, the
  class caught in get_gold_data.
* The sample standard deviation takes a real square root, hence those
  definitions (and the render function that mentions them) are marked
  noncomputable; every branch a concrete theorem evaluates avoids
  forcing the square root or computes it by explicit bounds.
-/

namespace GoldDashboard

/-- One element of the JSON array returned by the NBP API:
a date string (field "data") and a numeric price (field "cena"). -/
structure RawRecord where
  data : String
  cena : ℚ
deriving DecidableEq

/-- Outcome of the single HTTP GET performed by get_gold_data, after the
requests library has resolved redirects. -/
inductive FetchOutcome where
  | success (items : List RawRecord)
  | networkFailure
  | httpError (status : ℕ)
  | malformedJson
deriving DecidableEq

/-- True on every outcome that raises requests.RequestException
(network failure, raise_for_status on a 4xx/5xx response, or a JSON
decode error). -/
def FetchOutcome.isFailure : FetchOutcome → Bool
  | .success _ => false
  | _ => true

/-- The two-column pandas DataFrame built in get_gold_data. -/
structure DataFrame where
  dates : List String
  prices : List ℚ
deriving DecidableEq

/-- The dates list accumulated by the parsing loop
(`dates.append(...)` per item, in API order). -/
def datesOf (items : List RawRecord) : List String :=
  items.foldl (fun acc r => acc ++ [r.data]) []

/-- The prices list accumulated by the parsing loop
(`prices.append(float(item.cena))` per item, in API order). -/
def pricesOf (items : List RawRecord) : List ℚ :=
  items.foldl (fun acc r => acc ++ [r.cena]) []

/-- main.py lines 15-35: fetch both dates, parse the JSON array into a
DataFrame; any requests.RequestException is caught and yields None. -/
def get_gold_data (fetch : String → String → FetchOutcome)
    (start_date end_date : String) : Option DataFrame :=
  match fetch start_date end_date with
  | .success items => some ⟨datesOf items, pricesOf items⟩
  | .networkFailure => none
  | .httpError _ => none
  | .malformedJson => none

/-- Round-half-to-even to an integer, as Python round does on the exact
value of its argument. -/
def intRoundHE (q : ℚ) : ℤ :=
  let f := ⌊q⌋
  if q - f < 1/2 then f
  else if 1/2 < q - f then f + 1
  else if 2 ∣ f then f else f + 1

/-- Python round(x, 2) on an exact rational value. -/
def round2 (q : ℚ) : ℚ :=
  (intRoundHE (100 * q) : ℚ) / 100

/-- Round-half-to-even to an integer, on a real argument (used after the
square root in the standard deviation). -/
noncomputable def intRoundHE_R (x : ℝ) : ℤ :=
  let f := ⌊x⌋
  if x - f < 1/2 then f
  else if 1/2 < x - f then f + 1
  else if 2 ∣ f then f else f + 1

/-- Python round(x, 2) on a real value. -/
noncomputable def round2R (x : ℝ) : ℚ :=
  (intRoundHE_R (100 * x) : ℚ) / 100

/-- pandas Series.mean: NaN (none) on an empty series, else the
arithmetic mean. -/
def seriesMean (l : List ℚ) : Option ℚ :=
  if l = [] then none else some (l.sum / l.length)

/-- pandas Series.min: NaN (none) on an empty series. -/
def seriesMin (l : List ℚ) : Option ℚ :=
  match l with
  | [] => none
  | x :: xs => some (xs.foldl min x)

/-- pandas Series.max: NaN (none) on an empty series. -/
def seriesMax (l : List ℚ) : Option ℚ :=
  match l with
  | [] => none
  | x :: xs => some (xs.foldl max x)

/-- Linear interpolation between order statistics on an already sorted
series: position h = p*(n-1), result s[i] + (h-i)*(s[i+1]-s[i]) with
i = floor h; none on an empty series. -/
def quantileOfSorted (p : ℚ) : List ℚ → Option ℚ
  | [] => none
  | x :: xs =>
      let s := x :: xs
      let n := s.length
      let h := p * ((n : ℚ) - 1)
      let i := (⌊h⌋).toNat
      let g := h - (i : ℚ)
      some (s.getD i 0 + g * (s.getD (min (i + 1) (n - 1)) 0 - s.getD i 0))

/-- pandas Series.quantile with the default linear interpolation between
order statistics (the values are sorted first); NaN (none) on an empty
series. -/
def quantileLin (p : ℚ) (l : List ℚ) : Option ℚ :=
  quantileOfSorted p (List.insertionSort (fun a b => a ≤ b) l)

/-- Largest element of a list of naturals (0 on the empty list). -/
def listMaxNat (ns : List ℕ) : ℕ := ns.foldr max 0

/-- The highest multiplicity of any value in the series. -/
def maxCount (l : List ℚ) : ℕ := listMaxNat (l.map fun x => l.count x)

/-- pandas Series.mode: the distinct values of highest multiplicity, in
ascending order. -/
def modesList (l : List ℚ) : List ℚ :=
  (List.insertionSort (fun a b => a ≤ b) l.dedup).filter
    fun x => l.count x == maxCount l

/-- mode()[0]: the first (smallest) modal value; none models the
KeyError raised by indexing the empty mode series. -/
def seriesModeFirst (l : List ℚ) : Option ℚ := (modesList l).head?

/-- pandas sample variance (ddof = 1): NaN (none) when fewer than two
observations. -/
def sampleVar (l : List ℚ) : Option ℚ :=
  if l.length ≤ 1 then none
  else
    some (((l.map fun x => (x - l.sum / l.length) ^ 2).sum) /
      ((l.length : ℚ) - 1))

/-- pandas Series.std: square root of the sample variance. -/
noncomputable def sampleStd (l : List ℚ) : Option ℝ :=
  (sampleVar l).map fun v => Real.sqrt (Rat.cast v)

/-- avg_price = round(df.Price.mean(), 2)  (main.py lines 122 and 139). -/
def meanReported (l : List ℚ) : Option ℚ := (seriesMean l).map round2

/-- min_price = round(df.Price.min(), 2). -/
def minReported (l : List ℚ) : Option ℚ := (seriesMin l).map round2

/-- max_price = round(df.Price.max(), 2). -/
def maxReported (l : List ℚ) : Option ℚ := (seriesMax l).map round2

/-- q1 = round(df.Price.quantile(0.25), 2). -/
def q1Reported (l : List ℚ) : Option ℚ := (quantileLin (1/4) l).map round2

/-- q2 = round(df.Price.quantile(0.5), 2). -/
def medianReported (l : List ℚ) : Option ℚ := (quantileLin (1/2) l).map round2

/-- q3 = round(df.Price.quantile(0.75), 2). -/
def q3Reported (l : List ℚ) : Option ℚ := (quantileLin (3/4) l).map round2

/-- mode = round(df.Price.mode()[0], 2). -/
def modeReported (l : List ℚ) : Option ℚ := (seriesModeFirst l).map round2

/-- std_dev = round(df.Price.std(), 2). -/
noncomputable def stdReported (l : List ℚ) : Option ℚ :=
  (sampleStd l).map round2R

/-- iqr = round(q3 - q1, 2), computed from the already rounded
quartiles q3 and q1 (main.py line 147). -/
def iqrReported (l : List ℚ) : Option ℚ :=
  match q1Reported l, q3Reported l with
  | some a, some b => some (round2 (b - a))
  | _, _ => none

/-- Modelled from the spec: the interquartile range as the spec words
it, the exact Q3 minus the exact Q1 rounded to 2 decimal places (to be
compared with iqrReported, which the code derives from the rounded
quartiles). -/
def specIqrRounded (l : List ℚ) : Option ℚ :=
  match quantileLin (1/4) l, quantileLin (3/4) l with
  | some a, some b => some (round2 (b - a))
  | _, _ => none

/-- The Statistic column of the analysis table, in source order
(main.py line 151). -/
def statNames : List String :=
  ["Average Price", "Minimum Price", "Maximum Price", "First Quartile",
   "Median", "Third Quartile", "Mode", "Standard Deviation",
   "Interquartile Range"]

/-- The Value column of the analysis table, in source order
(main.py line 152). -/
noncomputable def statValues (l : List ℚ) : List (Option ℚ) :=
  [meanReported l, minReported l, maxReported l, q1Reported l,
   medianReported l, q3Reported l, modeReported l, stdReported l,
   iqrReported l]

/-- The static definitions mapping (main.py lines 42-52). -/
def definitions : String → String := fun n =>
  if n = "Average Price" then
    "The arithmetic mean of gold prices over a given period."
  else if n = "Minimum Price" then
    "The lowest gold price over a given period."
  else if n = "Maximum Price" then
    "The highest gold price over a given period."
  else if n = "First Quartile" then
    "The value below which 25% of the lowest prices are found."
  else if n = "Median" then
    "The middle value separating the lower half from the upper half of the data."
  else if n = "Third Quartile" then
    "The value below which 75% of the lowest prices are found."
  else if n = "Mode" then
    "The value that appears most frequently in the dataset."
  else if n = "Standard Deviation" then
    "A measure of data dispersion around the mean value."
  else if n = "Interquartile Range" then
    "The difference between the third and first quartile, indicating data dispersion."
  else ""

/-- The stats_df table rendered as HTML: its column headers and its rows
(Statistic, Value, Definition), one per statistic. -/
structure TableData where
  header : List String
  rows : List (String × Option ℚ × String)
deriving DecidableEq

/-- The table built at main.py lines 150-166. -/
noncomputable def analysisTableData (l : List ℚ) : TableData :=
  ⟨["Statistic", "Value", "Definition"],
   List.zipWith (fun n v => (n, v, definitions n)) statNames (statValues l)⟩

/-- The html.Div children render_content returns (one constructor per
return site of the callback). -/
inductive RenderBody where
  | errorDiv (msg : String)
  | chartDiv (dates : List String) (prices : List ℚ)
      (periodStart periodEnd : String) (avg maxv minv : Option ℚ)
  | analysisDiv (periodStart periodEnd : String) (table : TableData)
deriving DecidableEq

/-- What a call of the render_content callback does: return a body,
fall through every branch and return Python None, or raise an uncaught
exception. -/
inductive RenderResult where
  | output (body : RenderBody)
  | noReturn
  | raised (msg : String)
deriving DecidableEq

/-- main.py lines 96-176: the Dash callback.  It always calls
get_gold_data first; on a None DataFrame it returns the error div; the
gold tab renders the chart plus the rounded average, maximum and
minimum; the analysis tab computes the statistics (mode()[0] raising
KeyError on an empty series, before the table is built) and renders the
table; any other tab value falls off the end of the function. -/
noncomputable def render_content (tab start_date end_date : String)
    (fetch : String → String → FetchOutcome) : RenderResult :=
  match get_gold_data fetch start_date end_date with
  | none => .output (.errorDiv "Error fetching data. Please try again later.")
  | some df =>
    if tab = "gold" then
      .output (.chartDiv df.dates df.prices start_date end_date
        (meanReported df.prices) (maxReported df.prices)
        (minReported df.prices))
    else if tab = "analysis" then
      match seriesModeFirst df.prices with
      | none => .raised "KeyError"
      | some _ => .output (.analysisDiv start_date end_date
          (analysisTableData df.prices))
    else .noReturn

/-- A session of UI events: each tab-change or date-change event fires
the callback once, and the callback calls get_gold_data exactly once
(main.py line 97), unconditionally, which performs one HTTP fetch.  The
second component counts the fetch calls performed. -/
noncomputable def runSession (fetch : String → String → FetchOutcome) :
    List (String × String × String) → List RenderResult × ℕ
  | [] => ([], 0)
  | ev :: rest =>
      let r := render_content ev.1 ev.2.1 ev.2.2 fetch
      let rest' := runSession fetch rest
      (r :: rest'.1, rest'.2 + 1)

/-- The fixed price sequence used by the specification's worked
example. -/
def samplePrices : List ℚ := [100, 200, 300, 400]

theorem foldl_append_eq_map {α β : Type} (f : α → β) :
    ∀ (items : List α) (acc : List β),
      items.foldl (fun a r => a ++ [f r]) acc = acc ++ items.map f := by
  intro items
  induction items with
  | nil => intro acc; simp
  | cons r rest ih => intro acc; simp [List.foldl_cons, ih]

theorem datesOf_eq_map (items : List RawRecord) :
    datesOf items = items.map RawRecord.data := by
  simpa using foldl_append_eq_map RawRecord.data items []

theorem pricesOf_eq_map (items : List RawRecord) :
    pricesOf items = items.map RawRecord.cena := by
  simpa using foldl_append_eq_map RawRecord.cena items []

theorem le_listMaxNat {n : ℕ} {ns : List ℕ} (h : n ∈ ns) :
    n ≤ listMaxNat ns := by
  induction ns with
  | nil => cases h
  | cons a t ih =>
      rcases List.mem_cons.mp h with rfl | ht
      · exact le_max_left _ _
      · exact le_trans (ih ht) (le_max_right _ _)

theorem listMaxNat_mem {ns : List ℕ} (h : ns ≠ []) :
    listMaxNat ns ∈ ns := by
  induction ns with
  | nil => exact absurd rfl h
  | cons a t ih =>
      cases t with
      | nil => simp [listMaxNat]
      | cons b u =>
          have hmax : listMaxNat (a :: b :: u) = max a (listMaxNat (b :: u)) := rfl
          rcases le_total a (listMaxNat (b :: u)) with h1 | h1
          · rw [hmax, max_eq_right h1]
            exact List.mem_cons_of_mem _ (ih (List.cons_ne_nil _ _))
          · rw [hmax, max_eq_left h1]
            exact List.mem_cons_self _ _

theorem count_le_maxCount {x : ℚ} {l : List ℚ} (h : x ∈ l) :
    l.count x ≤ maxCount l :=
  le_listMaxNat (List.mem_map_of_mem _ h)

theorem exists_count_eq_maxCount {l : List ℚ} (h : l ≠ []) :
    ∃ x ∈ l, l.count x = maxCount l := by
  have hne : l.map (fun x => l.count x) ≠ [] := by
    simpa using h
  have hmem := listMaxNat_mem hne
  rw [List.mem_map] at hmem
  obtain ⟨x, hx, hcx⟩ := hmem
  exact ⟨x, hx, hcx⟩

theorem mem_modesList_iff {l : List ℚ} {x : ℚ} :
    x ∈ modesList l ↔ x ∈ l ∧ l.count x = maxCount l := by
  unfold modesList
  rw [List.mem_filter]
  rw [(List.perm_insertionSort (fun a b => a ≤ b) l.dedup).mem_iff,
    List.mem_dedup]
  constructor
  · rintro ⟨h1, h2⟩
    exact ⟨h1, by simpa using h2⟩
  · rintro ⟨h1, h2⟩
    exact ⟨h1, by simpa using h2⟩

theorem modesList_sorted (l : List ℚ) :
    List.Sorted (fun a b => a ≤ b) (modesList l) :=
  List.Pairwise.filter _
    (List.sorted_insertionSort (fun a b => a ≤ b) l.dedup)

theorem seriesModeFirst_spec (l : List ℚ) (h : l ≠ []) :
    ∃ m, seriesModeFirst l = some m ∧ m ∈ l ∧
      (∀ x ∈ l, l.count x ≤ l.count m) ∧
      (∀ x ∈ l, l.count x = l.count m → m ≤ x) := by
  obtain ⟨x0, hx0, hc0⟩ := exists_count_eq_maxCount h
  have hx0m : x0 ∈ modesList l := mem_modesList_iff.mpr ⟨hx0, hc0⟩
  cases hml : modesList l with
  | nil => rw [hml] at hx0m; cases hx0m
  | cons m t =>
      have hmm : m ∈ modesList l := by
        rw [hml]; exact List.mem_cons_self _ _
      have hm := mem_modesList_iff.mp hmm
      refine ⟨m, ?_, hm.1, ?_, ?_⟩
      · unfold seriesModeFirst
        rw [hml]
        rfl
      · intro x hx
        rw [hm.2]
        exact count_le_maxCount hx
      · intro x hx hcx
        have hxm : x ∈ modesList l :=
          mem_modesList_iff.mpr ⟨hx, by rw [hcx, hm.2]⟩
        rw [hml] at hxm
        rcases List.mem_cons.mp hxm with rfl | hxt
        · exact le_refl _
        · have hs := modesList_sorted l
          rw [hml] at hs
          exact (List.sorted_cons.mp hs).1 x hxt

theorem round2_is_cent (q : ℚ) : ∃ k : ℤ, round2 q = (k : ℚ) / 100 :=
  ⟨intRoundHE (100 * q), rfl⟩

theorem round2R_is_cent (x : ℝ) : ∃ k : ℤ, round2R x = (k : ℚ) / 100 :=
  ⟨intRoundHE_R (100 * x), rfl⟩

theorem intRoundHE_eq_floor {q : ℚ} {f : ℤ} (h1 : ⌊q⌋ = f)
    (h2 : q - (f : ℚ) < 1/2) : intRoundHE q = f := by
  simp only [intRoundHE]
  rw [h1, if_pos h2]

theorem intRoundHE_eq_floor_add_one {q : ℚ} {f : ℤ} (h1 : ⌊q⌋ = f)
    (h2 : 1/2 < q - (f : ℚ)) : intRoundHE q = f + 1 := by
  simp only [intRoundHE]
  rw [h1, if_neg (by linarith), if_pos h2]

theorem round2_eq_of_floor_lt {q : ℚ} {f : ℤ} (h1 : ⌊100 * q⌋ = f)
    (h2 : 100 * q - (f : ℚ) < 1/2) : round2 q = (f : ℚ) / 100 := by
  rw [round2, intRoundHE_eq_floor h1 h2]

theorem round2_eq_of_floor_gt {q : ℚ} {f : ℤ} (h1 : ⌊100 * q⌋ = f)
    (h2 : 1/2 < 100 * q - (f : ℚ)) : round2 q = ((f : ℚ) + 1) / 100 := by
  rw [round2, intRoundHE_eq_floor_add_one h1 h2]
  push_cast
  ring

/-- Claim C1: the claim says the statistics engine signals an explicit
error on an empty price sequence and never returns NaN.  The code does
not: a fetch that succeeds with zero observations still takes the
chart-mode path and renders the summary with NaN (here none) average,
maximum and minimum instead of the error message, and the analysis-mode
path raises an uncaught KeyError at mode()[0] rather than signalling an
explicit error. -/
theorem C1_empty_input_no_explicit_error :
    render_content "gold" "2024-01-01" "2024-01-05"
        (fun _ _ => FetchOutcome.success []) =
      RenderResult.output (RenderBody.chartDiv [] [] "2024-01-01"
        "2024-01-05" none none none) ∧
    render_content "analysis" "2024-01-01" "2024-01-05"
        (fun _ _ => FetchOutcome.success []) =
      RenderResult.raised "KeyError" ∧
    RenderResult.output (RenderBody.chartDiv [] [] "2024-01-01"
        "2024-01-05" none none none) ≠
      RenderResult.output (RenderBody.errorDiv
        "Error fetching data. Please try again later.") := by
  refine ⟨rfl, rfl, ?_⟩
  intro hcon
  simp at hcon

/-- Claim C2: every fetch failure (network failure, 4xx/5xx response,
malformed JSON) is caught in get_gold_data and converted to the None
sentinel, and render_content then returns the plain-text error message
for every tab, instead of a chart or table. -/
theorem C2_fetch_failure_yields_error_render
    (fetch : String → String → FetchOutcome) (tab s e : String)
    (h : (fetch s e).isFailure = true) :
    get_gold_data fetch s e = none ∧
      render_content tab s e fetch =
        RenderResult.output (RenderBody.errorDiv
          "Error fetching data. Please try again later.") := by
  cases hf : fetch s e with
  | success items => rw [hf] at h; cases h
  | networkFailure => exact ⟨by simp [get_gold_data, hf],
      by simp [render_content, get_gold_data, hf]⟩
  | httpError status => exact ⟨by simp [get_gold_data, hf],
      by simp [render_content, get_gold_data, hf]⟩
  | malformedJson => exact ⟨by simp [get_gold_data, hf],
      by simp [render_content, get_gold_data, hf]⟩

/-- Witness for C2 at a concrete network failure. -/
theorem C2_fetch_failure_yields_error_render_witness :
    ((fun (_ _ : String) => FetchOutcome.networkFailure) "2024-01-01"
        "2024-01-31").isFailure = true ∧
      (get_gold_data (fun _ _ => FetchOutcome.networkFailure)
          "2024-01-01" "2024-01-31" = none ∧
        render_content "gold" "2024-01-01" "2024-01-31"
            (fun _ _ => FetchOutcome.networkFailure) =
          RenderResult.output (RenderBody.errorDiv
            "Error fetching data. Please try again later.")) :=
  ⟨rfl, C2_fetch_failure_yields_error_render
    (fun _ _ => FetchOutcome.networkFailure) "gold" "2024-01-01"
    "2024-01-31" rfl⟩

/-- Claim C3, counterexample: a session of two render events with the
same date range and different tabs performs two fetch calls, while the
session without the tab switch performs one, so the number of network
calls does grow with tab switches. -/
theorem C3_counterexample_tab_switch_refetches :
    (runSession (fun _ _ => FetchOutcome.success [])
        [("gold", "2024-01-01", "2024-02-01"),
         ("analysis", "2024-01-01", "2024-02-01")]).2 = 2 ∧
    (runSession (fun _ _ => FetchOutcome.success [])
        [("gold", "2024-01-01", "2024-02-01")]).2 = 1 ∧
    (runSession (fun _ _ => FetchOutcome.success [])
        [("gold", "2024-01-01", "2024-02-01"),
         ("analysis", "2024-01-01", "2024-02-01")]).2 ≠
      (runSession (fun _ _ => FetchOutcome.success [])
        [("gold", "2024-01-01", "2024-02-01")]).2 := by
  refine ⟨rfl, rfl, ?_⟩
  intro hcon
  rw [show (runSession (fun _ _ => FetchOutcome.success [])
      [("gold", "2024-01-01", "2024-02-01"),
       ("analysis", "2024-01-01", "2024-02-01")]).2 = 2 from rfl,
    show (runSession (fun _ _ => FetchOutcome.success [])
      [("gold", "2024-01-01", "2024-02-01")]).2 = 1 from rfl] at hcon
  cases hcon

/-- Claim C3, amended: every render event, a tab switch included,
performs exactly one fetch call, so a session of k events performs k
fetches (the data is re-fetched on every tab switch, not reused); the
rendered outputs themselves depend only on each event's inputs and the
fetch function. -/
theorem C3_amended_one_fetch_per_render_event
    (fetch : String → String → FetchOutcome)
    (events : List (String × String × String)) :
    (runSession fetch events).2 = events.length ∧
      (runSession fetch events).1 =
        events.map (fun ev => render_content ev.1 ev.2.1 ev.2.2 fetch) := by
  induction events with
  | nil => exact ⟨rfl, rfl⟩
  | cons ev rest ih =>
      refine ⟨?_, ?_⟩
      · show (runSession fetch rest).2 + 1 = rest.length + 1
        rw [ih.1]
      · show render_content ev.1 ev.2.1 ev.2.2 fetch ::
          (runSession fetch rest).1 = _
        rw [ih.2, List.map_cons]

/-- Claim C7: a successful fetch of N valid JSON records produces a
DataFrame of exactly N observations whose dates and prices are those of
the corresponding records, in API order (the parsing loop is an
order-preserving map). -/
theorem C7_parse_preserves_records (items : List RawRecord)
    (s e : String) :
    get_gold_data (fun _ _ => FetchOutcome.success items) s e =
      some ⟨items.map RawRecord.data, items.map RawRecord.cena⟩ ∧
    (items.map RawRecord.data).length = items.length ∧
    (items.map RawRecord.cena).length = items.length := by
  refine ⟨?_, List.length_map _ _, List.length_map _ _⟩
  simp [get_gold_data, datesOf_eq_map, pricesOf_eq_map]

/-- Claim C9: render_content is deterministic in (tab, start_date,
end_date) once the fetch is a fixed function: equal inputs and equal
fetch functions give identical rendered output. -/
theorem C9_render_deterministic (tab tab' s s' e e' : String)
    (f f' : String → String → FetchOutcome)
    (h1 : tab = tab') (h2 : s = s') (h3 : e = e') (h4 : f = f') :
    render_content tab s e f = render_content tab' s' e' f' := by
  rw [h1, h2, h3, h4]

/-- Witness for C9 at concrete equal inputs. -/
theorem C9_render_deterministic_witness :
    "gold" = "gold" ∧ "2024-01-01" = "2024-01-01" ∧
      "2024-03-01" = "2024-03-01" ∧
      (fun (_ _ : String) => FetchOutcome.success []) =
        (fun _ _ => FetchOutcome.success []) ∧
      render_content "gold" "2024-01-01" "2024-03-01"
          (fun _ _ => FetchOutcome.success []) =
        render_content "gold" "2024-01-01" "2024-03-01"
          (fun _ _ => FetchOutcome.success []) :=
  ⟨rfl, rfl, rfl, rfl, C9_render_deterministic "gold" "gold"
    "2024-01-01" "2024-01-01" "2024-03-01" "2024-03-01"
    (fun _ _ => FetchOutcome.success [])
    (fun _ _ => FetchOutcome.success []) rfl rfl rfl rfl⟩

/-- Claim C10: with a successful fetch, any tab value other than gold
and analysis falls through every branch of the callback and returns
Python None: no chart, no table, no error message. -/
theorem C10_unknown_tab_returns_none (tab s e : String)
    (items : List RawRecord) (h1 : tab ≠ "gold") (h2 : tab ≠ "analysis") :
    render_content tab s e (fun _ _ => FetchOutcome.success items) =
      RenderResult.noReturn := by
  simp [render_content, get_gold_data, h1, h2]

/-- Witness for C10 at a concrete unknown tab. -/
theorem C10_unknown_tab_returns_none_witness :
    ("summary" : String) ≠ "gold" ∧ ("summary" : String) ≠ "analysis" ∧
      render_content "summary" "2024-01-01" "2024-01-31"
          (fun _ _ => FetchOutcome.success []) =
        RenderResult.noReturn :=
  ⟨by decide, by decide, C10_unknown_tab_returns_none "summary"
    "2024-01-01" "2024-01-31" [] (by decide) (by decide)⟩

/-- Claim C4: on the fixed price sequence [100, 200, 300, 400] the
statistics engine reports mean 250, min 100, max 400, Q1 175 (linear
interpolation between the order statistics 100 and 200), median 250,
Q3 325, sample standard deviation 129.10 after rounding to 2 decimals
(the exact value is the square root of 50000/3), and IQR 150. -/
theorem C4_fixed_sequence_statistics :
    meanReported samplePrices = some 250 ∧
    minReported samplePrices = some 100 ∧
    maxReported samplePrices = some 400 ∧
    q1Reported samplePrices = some 175 ∧
    medianReported samplePrices = some 250 ∧
    q3Reported samplePrices = some 325 ∧
    sampleVar samplePrices = some (50000/3) ∧
    stdReported samplePrices = some (1291/10) ∧
    iqrReported samplePrices = some 150 := by
  have hsort : List.insertionSort (fun a b => a ≤ b) samplePrices =
      [100, 200, 300, 400] := by
    rw [samplePrices]
    exact List.Sorted.insertionSort_eq (by norm_num [List.sorted_cons])
  have h100 : round2 (100 : ℚ) = 100 := by
    rw [round2_eq_of_floor_lt (f := 10000) (by norm_num) (by norm_num)]
    norm_num
  have h175 : round2 (175 : ℚ) = 175 := by
    rw [round2_eq_of_floor_lt (f := 17500) (by norm_num) (by norm_num)]
    norm_num
  have h250 : round2 (250 : ℚ) = 250 := by
    rw [round2_eq_of_floor_lt (f := 25000) (by norm_num) (by norm_num)]
    norm_num
  have h325 : round2 (325 : ℚ) = 325 := by
    rw [round2_eq_of_floor_lt (f := 32500) (by norm_num) (by norm_num)]
    norm_num
  have h400 : round2 (400 : ℚ) = 400 := by
    rw [round2_eq_of_floor_lt (f := 40000) (by norm_num) (by norm_num)]
    norm_num
  have h150 : round2 (150 : ℚ) = 150 := by
    rw [round2_eq_of_floor_lt (f := 15000) (by norm_num) (by norm_num)]
    norm_num
  have hq1 : quantileLin (1/4) samplePrices = some 175 := by
    rw [quantileLin, hsort]
    simp only [quantileOfSorted]
    norm_num [List.getD]
  have hq2 : quantileLin (1/2) samplePrices = some 250 := by
    rw [quantileLin, hsort]
    simp only [quantileOfSorted]
    norm_num [List.getD]
  have hq3 : quantileLin (3/4) samplePrices = some 325 := by
    rw [quantileLin, hsort]
    simp only [quantileOfSorted]
    norm_num [List.getD, show Int.toNat 2 = 2 from rfl]
  have hmean : seriesMean samplePrices = some 250 := by
    rw [seriesMean, if_neg (by simp [samplePrices])]
    rw [show samplePrices.sum / (samplePrices.length : ℚ) = 250 by
      simp [samplePrices]
      norm_num]
  have hmin : seriesMin samplePrices = some 100 := by
    rw [samplePrices]
    show some (List.foldl min 100 [200, 300, 400]) = some 100
    norm_num [List.foldl, min_def]
  have hmax : seriesMax samplePrices = some 400 := by
    rw [samplePrices]
    show some (List.foldl max 100 [200, 300, 400]) = some 400
    norm_num [List.foldl, max_def]
  have hq1r : q1Reported samplePrices = some 175 := by
    rw [q1Reported, hq1, Option.map_some', h175]
  have hq3r : q3Reported samplePrices = some 325 := by
    rw [q3Reported, hq3, Option.map_some', h325]
  have hvar : sampleVar samplePrices = some (50000/3) := by
    rw [sampleVar, if_neg (by simp [samplePrices])]
    rw [show ((samplePrices.map
        fun x => (x - samplePrices.sum / samplePrices.length) ^ 2).sum) /
        ((samplePrices.length : ℚ) - 1) = 50000/3 by
      simp [samplePrices]
      norm_num]
  have hkey : round2R (Real.sqrt ((50000 : ℝ)/3)) = 1291/10 := by
    have hx_lo : (25819/200 : ℝ) < Real.sqrt ((50000 : ℝ)/3) :=
      (Real.lt_sqrt (by norm_num)).mpr (by norm_num)
    have hx_hi : Real.sqrt ((50000 : ℝ)/3) < (1291/10 : ℝ) :=
      (Real.sqrt_lt' (by norm_num)).mpr (by norm_num)
    have hfl : ⌊(100 : ℝ) * Real.sqrt ((50000 : ℝ)/3)⌋ = 12909 := by
      rw [Int.floor_eq_iff]
      constructor
      · push_cast
        linarith
      · push_cast
        linarith
    rw [round2R]
    simp only [intRoundHE_R]
    rw [hfl, if_neg (by push_cast; linarith), if_pos (by push_cast; linarith)]
    norm_num
  have hstd : stdReported samplePrices = some (1291/10) := by
    rw [stdReported, sampleStd, hvar, Option.map_some', Option.map_some']
    rw [show (((50000/3 : ℚ) : ℝ)) = (50000 : ℝ)/3 by push_cast; norm_num]
    rw [hkey]
  refine ⟨?_, ?_, ?_, hq1r, ?_, hq3r, hvar, hstd, ?_⟩
  · rw [meanReported, hmean, Option.map_some', h250]
  · rw [minReported, hmin, Option.map_some', h100]
  · rw [maxReported, hmax, Option.map_some', h400]
  · rw [medianReported, hq2, Option.map_some', h250]
  · rw [iqrReported, hq1r, hq3r]
    show some (round2 ((325 : ℚ) - 175)) = some (150 : ℚ)
    rw [show (325 : ℚ) - 175 = 150 by norm_num, h150]

/-- Claim C5: for every non-empty price sequence, mode()[0] is a most
frequent value, and on ties it is the smallest most frequent value
(pandas returns the modes sorted ascending). -/
theorem C5_mode_most_frequent_tiebreak_smallest (l : List ℚ)
    (h : l ≠ []) :
    ∃ m, seriesModeFirst l = some m ∧ modeReported l = some (round2 m) ∧
      m ∈ l ∧ (∀ x ∈ l, l.count x ≤ l.count m) ∧
      (∀ x ∈ l, l.count x = l.count m → m ≤ x) := by
  obtain ⟨m, h1, h2, h3, h4⟩ := seriesModeFirst_spec l h
  refine ⟨m, h1, ?_, h2, h3, h4⟩
  rw [modeReported, h1]
  rfl

/-- Witness for C5 on a series with the tied most-frequent values 1 and
3, where the smallest, 1, is selected. -/
theorem C5_mode_most_frequent_tiebreak_smallest_witness :
    ([3, 1, 3, 1, 2] : List ℚ) ≠ [] ∧
      (∃ m, seriesModeFirst ([3, 1, 3, 1, 2] : List ℚ) = some m ∧
        modeReported ([3, 1, 3, 1, 2] : List ℚ) = some (round2 m) ∧
        m ∈ ([3, 1, 3, 1, 2] : List ℚ) ∧
        (∀ x ∈ ([3, 1, 3, 1, 2] : List ℚ),
          ([3, 1, 3, 1, 2] : List ℚ).count x ≤
            ([3, 1, 3, 1, 2] : List ℚ).count m) ∧
        (∀ x ∈ ([3, 1, 3, 1, 2] : List ℚ),
          ([3, 1, 3, 1, 2] : List ℚ).count x =
            ([3, 1, 3, 1, 2] : List ℚ).count m → m ≤ x)) :=
  ⟨by decide, C5_mode_most_frequent_tiebreak_smallest _ (by decide)⟩

/-- Claim C8: in analysis mode, for every non-empty price sequence the
rendered table has columns Statistic, Value, Definition and exactly one
row per statistic, in the fixed source order, each row pairing the
statistic with its computed value and its static definition. -/
theorem C8_analysis_table_structure (items : List RawRecord)
    (s e : String) (h : pricesOf items ≠ []) :
    ∃ t : TableData,
      render_content "analysis" s e
          (fun _ _ => FetchOutcome.success items) =
        RenderResult.output (RenderBody.analysisDiv s e t) ∧
      t.header = ["Statistic", "Value", "Definition"] ∧
      t.rows.length = 9 ∧
      t.rows.map (fun r => r.1) = statNames ∧
      t.rows.map (fun r => r.2.1) = statValues (pricesOf items) ∧
      (∀ r ∈ t.rows, r.2.2 = definitions r.1) := by
  obtain ⟨m, hm, -, -, -⟩ := seriesModeFirst_spec _ h
  refine ⟨analysisTableData (pricesOf items), ?_, rfl, ?_, ?_, ?_, ?_⟩
  · simp [render_content, get_gold_data, hm]
  · simp [analysisTableData, statNames, statValues]
  · simp [analysisTableData, statNames, statValues]
  · simp [analysisTableData, statNames, statValues]
  · intro r hr
    simp only [analysisTableData, statNames, statValues,
      List.zipWith, List.mem_cons, List.not_mem_nil, or_false] at hr
    rcases hr with rfl | rfl | rfl | rfl | rfl | rfl | rfl | rfl | rfl <;>
      simp [definitions]

/-- Witness for C8 on the one-element series [100]. -/
theorem C8_analysis_table_structure_witness :
    pricesOf [⟨"2024-01-02", 100⟩] ≠ [] ∧
      (∃ t : TableData,
        render_content "analysis" "2024-01-01" "2024-01-31"
            (fun _ _ => FetchOutcome.success [⟨"2024-01-02", 100⟩]) =
          RenderResult.output
            (RenderBody.analysisDiv "2024-01-01" "2024-01-31" t) ∧
        t.header = ["Statistic", "Value", "Definition"] ∧
        t.rows.length = 9 ∧
        t.rows.map (fun r => r.1) = statNames ∧
        t.rows.map (fun r => r.2.1) =
          statValues (pricesOf [⟨"2024-01-02", 100⟩]) ∧
        (∀ r ∈ t.rows, r.2.2 = definitions r.1)) :=
  ⟨by decide, C8_analysis_table_structure [⟨"2024-01-02", 100⟩]
    "2024-01-01" "2024-01-31" (by decide)⟩

/-- Claim C6, counterexample: on the series
[10.004, 10.004, 10.016, 10.016] the code reports IQR = 0.02 (the
difference of the already rounded quartiles, rounded again), while the
exact interquartile range 0.012 rounded to 2 decimals is 0.01, so the
reported IQR does not equal its exact value rounded to 2 decimals. -/
theorem C6_counterexample_iqr_double_rounding :
    iqrReported [2501/250, 2501/250, 1252/125, 1252/125] =
      some (1/50) ∧
    specIqrRounded [2501/250, 2501/250, 1252/125, 1252/125] =
      some (1/100) ∧
    iqrReported [2501/250, 2501/250, 1252/125, 1252/125] ≠
      specIqrRounded [2501/250, 2501/250, 1252/125, 1252/125] := by
  have hsort : List.insertionSort (fun a b => a ≤ b)
      ([2501/250, 2501/250, 1252/125, 1252/125] : List ℚ) =
      [2501/250, 2501/250, 1252/125, 1252/125] :=
    List.Sorted.insertionSort_eq (by norm_num [List.sorted_cons])
  have hq1 : quantileLin (1/4)
      ([2501/250, 2501/250, 1252/125, 1252/125] : List ℚ) =
      some (2501/250) := by
    rw [quantileLin, hsort]
    simp only [quantileOfSorted]
    norm_num [List.getD]
  have hq3 : quantileLin (3/4)
      ([2501/250, 2501/250, 1252/125, 1252/125] : List ℚ) =
      some (1252/125) := by
    rw [quantileLin, hsort]
    simp only [quantileOfSorted]
    norm_num [List.getD, show Int.toNat 2 = 2 from rfl]
  have hr1 : round2 (2501/250 : ℚ) = 10 := by
    rw [round2_eq_of_floor_lt (f := 1000) (by norm_num) (by norm_num)]
    norm_num
  have hr3 : round2 (1252/125 : ℚ) = 501/50 := by
    rw [round2_eq_of_floor_gt (f := 1001) (by norm_num) (by norm_num)]
    norm_num
  have hq1r : q1Reported
      ([2501/250, 2501/250, 1252/125, 1252/125] : List ℚ) =
      some (10 : ℚ) := by
    rw [q1Reported, hq1, Option.map_some', hr1]
  have hq3r : q3Reported
      ([2501/250, 2501/250, 1252/125, 1252/125] : List ℚ) =
      some (501/50 : ℚ) := by
    rw [q3Reported, hq3, Option.map_some', hr3]
  have hiqr : iqrReported
      ([2501/250, 2501/250, 1252/125, 1252/125] : List ℚ) =
      some (1/50 : ℚ) := by
    rw [iqrReported, hq1r, hq3r]
    show some (round2 ((501 : ℚ)/50 - 10)) = some (1/50 : ℚ)
    have : (501/50 : ℚ) - 10 = 1/50 := by norm_num
    rw [this, round2_eq_of_floor_lt (f := 2) (by norm_num) (by norm_num)]
    norm_num
  have hspec : specIqrRounded
      ([2501/250, 2501/250, 1252/125, 1252/125] : List ℚ) =
      some (1/100 : ℚ) := by
    rw [specIqrRounded, hq1, hq3]
    show some (round2 ((1252 : ℚ)/125 - 2501/250)) = some (1/100 : ℚ)
    have : (1252/125 : ℚ) - 2501/250 = 3/250 := by norm_num
    rw [this, round2_eq_of_floor_lt (f := 1) (by norm_num) (by norm_num)]
    norm_num
  refine ⟨hiqr, hspec, ?_⟩
  rw [hiqr, hspec]
  intro hcon
  rw [Option.some_inj] at hcon
  norm_num at hcon

/-- Claim C6, amended: every reported summary value is an exact
multiple of 0.01; mean, min, max, Q1, median, Q3 and mode each equal
their exact value rounded to 2 decimals (and the standard deviation is
the real square root of the sample variance rounded to 2 decimals),
but the reported IQR is round2 applied to the difference of the already
rounded quartiles, which can differ from the exact IQR rounded to 2
decimals. -/
theorem C6_amended_rounding (l : List ℚ) (h : l ≠ []) :
    meanReported l = some (round2 (l.sum / l.length)) ∧
    minReported l = (seriesMin l).map round2 ∧
    maxReported l = (seriesMax l).map round2 ∧
    q1Reported l = (quantileLin (1/4) l).map round2 ∧
    medianReported l = (quantileLin (1/2) l).map round2 ∧
    q3Reported l = (quantileLin (3/4) l).map round2 ∧
    modeReported l = (seriesModeFirst l).map round2 ∧
    stdReported l =
      (sampleVar l).map (fun v => round2R (Real.sqrt (Rat.cast v))) ∧
    iqrReported l =
      (match (quantileLin (1/4) l).map round2,
          (quantileLin (3/4) l).map round2 with
        | some a, some b => some (round2 (b - a))
        | _, _ => none) ∧
    (∀ v : ℚ, some v ∈ statValues l → ∃ k : ℤ, v = (k : ℚ) / 100) := by
  refine ⟨?_, rfl, rfl, rfl, rfl, rfl, rfl, ?_, rfl, ?_⟩
  · rw [meanReported, seriesMean, if_neg h]
    rfl
  · rw [stdReported, sampleStd, Option.map_map]
    rfl
  · intro v hv
    have hcent : ∀ o : Option ℚ, o.map round2 = some v →
        ∃ k : ℤ, v = (k : ℚ) / 100 := by
      intro o ho
      rw [Option.map_eq_some'] at ho
      obtain ⟨a, -, ha⟩ := ho
      obtain ⟨k, hk⟩ := round2_is_cent a
      exact ⟨k, by rw [← ha, hk]⟩
    simp only [statValues, List.mem_cons, List.not_mem_nil,
      or_false] at hv
    rcases hv with hv | hv | hv | hv | hv | hv | hv | hv | hv
    · exact hcent _ hv.symm
    · exact hcent _ hv.symm
    · exact hcent _ hv.symm
    · exact hcent _ hv.symm
    · exact hcent _ hv.symm
    · exact hcent _ hv.symm
    · exact hcent _ hv.symm
    · rw [eq_comm, stdReported, Option.map_eq_some'] at hv
      obtain ⟨a, -, ha⟩ := hv
      obtain ⟨k, hk⟩ := round2R_is_cent a
      exact ⟨k, by rw [← ha, hk]⟩
    · rw [eq_comm, iqrReported] at hv
      rcases hq1 : q1Reported l with - | a <;> rw [hq1] at hv
      · cases hv
      · rcases hq3 : q3Reported l with - | b <;> rw [hq3] at hv
        · cases hv
        · obtain ⟨k, hk⟩ := round2_is_cent (b - a)
          exact ⟨k, by rw [← Option.some_inj.mp hv, hk]⟩

/-- Witness for C6 (amended) on the series [1, 2]. -/
theorem C6_amended_rounding_witness :
    ([1, 2] : List ℚ) ≠ [] ∧
      (meanReported ([1, 2] : List ℚ) =
          some (round2 (([1, 2] : List ℚ).sum / ([1, 2] : List ℚ).length)) ∧
        minReported ([1, 2] : List ℚ) =
          (seriesMin ([1, 2] : List ℚ)).map round2 ∧
        maxReported ([1, 2] : List ℚ) =
          (seriesMax ([1, 2] : List ℚ)).map round2 ∧
        q1Reported ([1, 2] : List ℚ) =
          (quantileLin (1/4) ([1, 2] : List ℚ)).map round2 ∧
        medianReported ([1, 2] : List ℚ) =
          (quantileLin (1/2) ([1, 2] : List ℚ)).map round2 ∧
        q3Reported ([1, 2] : List ℚ) =
          (quantileLin (3/4) ([1, 2] : List ℚ)).map round2 ∧
        modeReported ([1, 2] : List ℚ) =
          (seriesModeFirst ([1, 2] : List ℚ)).map round2 ∧
        stdReported ([1, 2] : List ℚ) =
          (sampleVar ([1, 2] : List ℚ)).map
            (fun v => round2R (Real.sqrt (Rat.cast v))) ∧
        iqrReported ([1, 2] : List ℚ) =
          (match (quantileLin (1/4) ([1, 2] : List ℚ)).map round2,
              (quantileLin (3/4) ([1, 2] : List ℚ)).map round2 with
            | some a, some b => some (round2 (b - a))
            | _, _ => none) ∧
        (∀ v : ℚ, some v ∈ statValues ([1, 2] : List ℚ) →
          ∃ k : ℤ, v = (k : ℚ) / 100)) :=
  ⟨by decide, C6_amended_rounding [1, 2] (by decide)⟩

end GoldDashboard
